import Mathlib

/-!
Verification development for the mrcook/tzxbrowser TZX tape-container
decoder.  The repository sources are translated into executable Lean
definitions: byte streams are lists of naturals (each element one byte),
little-endian multi-byte reads are explicit arithmetic, and fallible
operations return `Except`/flags.  The low-level reader types
(`tape.File`, `storage.Reader`) are declared in files outside the given
sources, so their primitives are modelled from the specification; every
block-decoding routine and the container reader are translated directly
from the Go sources.
-/

/-- Little-endian value of a byte list (storage.Reader.BytesToLong applied
to a 4-byte list; works uniformly for any length). -/
def bytesToLong : List Nat → Nat
  | [] => 0
  | b :: bs => b + 256 * bytesToLong bs

namespace tape

/-- Modelled from the spec: tape.File.ReadByte (the tape.File type is not
under src).  Reads one byte; returns the value, the remaining stream and a
success flag.  On truncation the value is the Go zero value 0.  The Go call
sites in src discard the returned error. -/
def fileReadByte : List Nat → Nat × List Nat × Bool
  | [] => (0, [], false)
  | b :: bs => (b, bs, true)

/-- Modelled from the spec: tape.File.ReadShort reads a 16-bit
little-endian word; fails (flag false, zero value) when fewer than two
bytes remain.  The Go signature returns only the value, so the failure is
not observable by its callers. -/
def fileReadShort : List Nat → Nat × List Nat × Bool
  | b0 :: b1 :: bs => (b0 + 256 * b1, bs, true)
  | _ => (0, [], false)

/-- Modelled from the spec: tape.File.ReadLong reads a 32-bit
little-endian word; fails (flag false, zero value) when fewer than four
bytes remain. -/
def fileReadLong : List Nat → Nat × List Nat × Bool
  | b0 :: b1 :: b2 :: b3 :: bs =>
      (b0 + 256 * b1 + 65536 * b2 + 16777216 * b3, bs, true)
  | _ => (0, [], false)

/-- Modelled from the spec: tape.File.ReadBytes n reads n raw bytes; when
fewer remain it returns what is available with the flag false. -/
def fileReadBytes (n : Nat) (s : List Nat) : List Nat × List Nat × Bool :=
  (s.take n, s.drop n, decide (n ≤ s.length))

/-- tape.TurboSpeedData (src/tape/block_turbo_speed_data.go): record for
TZX block ID 0x11.  Field order and names follow the Go struct. -/
structure TurboSpeedData where
  PilotPulse : Nat
  SyncFirstPulse : Nat
  SyncSecondPulse : Nat
  ZeroBitPulse : Nat
  OneBitPulse : Nat
  PilotTone : Nat
  UsedBits : Nat
  Pause : Nat
  Length : Nat
  LengthSpareByte : Nat
  Data : List Nat
deriving Repr, DecidableEq

/-- tape.TurboSpeedData.Process (src/tape/block_turbo_speed_data.go lines
25-38), translated statement by statement.  The Go code reads five 16-bit
words (PilotPulse, SyncFirstPulse, SyncSecondPulse, ZeroBitPulse,
PilotTone) — it never reads OneBitPulse, which keeps its zero value — then
UsedBits, Pause, a two-byte Length, a spare length byte, and finally reads
Length data bytes whose result is discarded (t.Data keeps its zero value).
Returns the record, the remaining stream, and the conjunction of the read
flags (the Go code discards every read error; the flag records whether a
truncation occurred). -/
def TurboSpeedData.Process (s0 : List Nat) : TurboSpeedData × List Nat × Bool :=
  let r1 := fileReadShort s0
  let r2 := fileReadShort r1.2.1
  let r3 := fileReadShort r2.2.1
  let r4 := fileReadShort r3.2.1
  let r5 := fileReadShort r4.2.1
  let r6 := fileReadByte r5.2.1
  let r7 := fileReadShort r6.2.1
  let r8 := fileReadShort r7.2.1
  let r9 := fileReadByte r8.2.1
  let rA := fileReadBytes r8.1 r9.2.1
  (⟨r1.1, r2.1, r3.1, r4.1, 0, r5.1, r6.1, r7.1, r8.1, r9.1, []⟩,
   rA.2.1,
   r1.2.2 && r2.2.2 && r3.2.2 && r4.2.2 && r5.2.2 && r6.2.2 &&
     r7.2.2 && r8.2.2 && r9.2.2 && rA.2.2)

/-- tzx.SetSignalLevel (src/tzx/read.go, second file part): record for TZX
block ID 0x2B. -/
structure SetSignalLevel where
  Length : Nat
  SignalLevel : Nat
deriving Repr, DecidableEq

/-- tzx.SetSignalLevel.Process: reads the 4-byte block length and then one
signal-level byte; the declared length is not used to skip anything. -/
def SetSignalLevel.Process (s0 : List Nat) : SetSignalLevel × List Nat × Bool :=
  let r1 := fileReadLong s0
  let r2 := fileReadByte r1.2.1
  (⟨r1.1, r2.1⟩, r2.2.1, r1.2.2 && r2.2.2)

end tape

namespace blocks

/-- Modelled from the spec: storage.Reader.ReadByte (retroio reader, not
under src); returns the byte value and the rest, zero on truncation. -/
def rReadByte : List Nat → Nat × List Nat
  | [] => (0, [])
  | b :: bs => (b, bs)

/-- Modelled from the spec: storage.Reader.ReadShort, LE 16-bit. -/
def rReadShort : List Nat → Nat × List Nat
  | b0 :: b1 :: bs => (b0 + 256 * b1, bs)
  | _ => (0, [])

/-- Modelled from the spec: storage.Reader.ReadLong, LE 32-bit. -/
def rReadLong : List Nat → Nat × List Nat
  | b0 :: b1 :: b2 :: b3 :: bs =>
      (b0 + 256 * b1 + 65536 * b2 + 16777216 * b3, bs)
  | _ => (0, [])

/-- Modelled from the spec: storage.Reader.ReadBytes n returns n raw bytes
(what is available on truncation). -/
def rReadBytes (n : Nat) (s : List Nat) : List Nat × List Nat :=
  (s.take n, s.drop n)

/-- Modelled from the spec: storage.Reader.Read fills a buffer of the given
size exactly, failing when fewer bytes remain (spec: all reads fail with
TruncatedInput when fewer bytes remain than requested). -/
def rRead (n : Nat) (s : List Nat) : Except String (List Nat × List Nat) :=
  if n ≤ s.length then .ok (s.take n, s.drop n)
  else .error "unexpected EOF"

/-- The 3-byte length read of src/spectrum/tzx/blocks/group.go lines
130-132: read 3 bytes, append a zero fourth byte, convert little-endian. -/
def read3ByteLength (s : List Nat) : Nat × List Nat :=
  let r := rReadBytes 3 s
  (bytesToLong (r.1 ++ [0]), r.2)

/-- blocks.TurboSpeedData (src/spectrum/tzx/blocks/group.go, second file
part): retroio record for TZX block ID 0x11.  The data block is read but
not retained, so only the scalar fields appear. -/
structure TurboSpeedData where
  BlockID : Nat
  PilotPulse : Nat
  SyncFirstPulse : Nat
  SyncSecondPulse : Nat
  ZeroBitPulse : Nat
  OneBitPulse : Nat
  PilotTone : Nat
  UsedBits : Nat
  Pause : Nat
  Length : Nat
deriving Repr, DecidableEq

/-- blocks.TurboSpeedData.Read (src/spectrum/tzx/blocks/group.go lines
115-141): reads and checks the block ID byte, six 16-bit words, the
used-bits byte, the pause word, the 3-byte length (zero-extended), and then
exactly Length data bytes, which are discarded; a short final read is an
error, which propagates. -/
def TurboSpeedData.Read (s0 : List Nat) : Except String (TurboSpeedData × List Nat) :=
  let r0 := rReadByte s0
  if r0.1 ≠ 0x11 then .error "expected block ID 0x11"
  else
    let r1 := rReadShort r0.2
    let r2 := rReadShort r1.2
    let r3 := rReadShort r2.2
    let r4 := rReadShort r3.2
    let r5 := rReadShort r4.2
    let r6 := rReadShort r5.2
    let r7 := rReadByte r6.2
    let r8 := rReadShort r7.2
    let rL := read3ByteLength r8.2
    match rRead rL.1 rL.2 with
    | .error e => .error e
    | .ok rD =>
        .ok (⟨0x11, r1.1, r2.1, r3.1, r4.1, r5.1, r6.1, r7.1, r8.1, rL.1⟩, rD.2)

/-- blocks.GroupStart (src/spectrum/tzx/blocks/group.go lines 17-30):
one length byte then that many group-name bytes, which are retained. -/
structure GroupStart where
  Length : Nat
  GroupName : List Nat
deriving Repr, DecidableEq

/-- blocks.GroupStart.Read. -/
def GroupStart.Read (s0 : List Nat) : GroupStart × List Nat :=
  let r1 := rReadByte s0
  let r2 := rReadBytes r1.1 r1.2
  (⟨r1.1, r2.1⟩, r2.2)

/-- blocks.LoopStart (src/unnamed/part_000): one 16-bit repetition count. -/
structure LoopStart where
  RepetitionCount : Nat
deriving Repr, DecidableEq

/-- blocks.LoopStart.Read. -/
def LoopStart.Read (s0 : List Nat) : LoopStart × List Nat :=
  let r1 := rReadShort s0
  (⟨r1.1⟩, r1.2)

/-- blocks.StopTapeWhen48kMode (src/spectrum/tzx/blocks/stop_tape_48k_mode.go):
only the 4-byte block length is stored. -/
structure StopTapeWhen48kMode where
  Length : Nat
deriving Repr, DecidableEq

/-- blocks.StopTapeWhen48kMode.Read (src lines 22-24): reads the 4-byte
length and nothing else; the declared length is not used to skip bytes. -/
def StopTapeWhen48kMode.Read (s0 : List Nat) : StopTapeWhen48kMode × List Nat :=
  let r1 := rReadLong s0
  (⟨r1.1⟩, r1.2)

end blocks

namespace tzx

/-- Header record (src/tzx/read.go lines 88-93). -/
structure header where
  Signature : List Nat
  Terminator : Nat
  MajorVersion : Nat
  MinorVersion : Nat
deriving Repr, DecidableEq

/-- ASCII bytes of the required signature "ZXTape!". -/
def zxtapeSignature : List Nat := [90, 88, 84, 97, 112, 101, 33]

/-- Reader.readHeader (src/tzx/read.go lines 156-167): binary.Read of the
10 fixed header bytes (error when fewer remain), then the signature
check. -/
def readHeaderBytes : List Nat → Except String (header × List Nat)
  | s0 :: s1 :: s2 :: s3 :: s4 :: s5 :: s6 :: t :: maj :: minv :: rest =>
      let h : header := ⟨[s0, s1, s2, s3, s4, s5, s6], t, maj, minv⟩
      if h.Signature = zxtapeSignature then .ok (h, rest)
      else .error "TZX file is not in correct format"
  | _ => .error "binary.Read failed"

/-- github.com/pkg/errors.Wrapf as used by header.valid: wrapping a nil
error returns nil, otherwise it prefixes the message. -/
def wrapf : Option String → String → Option String
  | none, _ => none
  | some e, m => some (m ++ ": " ++ e)

/-- header.valid (src/tzx/read.go lines 235-262), translated statement by
statement: a nil validation error is threaded through errors.Wrapf for the
signature, terminator and major-version checks (the minor-version branch
only prints a warning).  none means no error. -/
def header.valid (h : header) : Option String :=
  let v0 : Option String := none
  let v1 := if h.Signature ≠ zxtapeSignature then wrapf v0 "Incorrect signature" else v0
  let v2 := if h.Terminator ≠ 0x1a then wrapf v1 "Incorrect terminator" else v1
  let v3 := if h.MajorVersion ≠ 1 then wrapf v2 "Invalid version" else v2
  v3

/-- The condition under which header.valid prints its compatibility
warning (src/tzx/read.go lines 250-259). -/
def headerWarns (h : header) : Bool :=
  h.MajorVersion == 1 && h.MinorVersion < 20

/-- NewReader (src/tzx/read.go lines 99-110): readHeader then
header.valid; a some validation error aborts. -/
def NewReader (s : List Nat) : Except String (header × List Nat) :=
  match readHeaderBytes s with
  | .error e => .error e
  | .ok (h, rest) =>
      match h.valid with
      | some e => .error e
      | none => .ok (h, rest)

/-- Sum of the block records produced by readDataBlock.  Only the variants
whose Read bodies appear in the given sources carry fields; the remaining
known tags are represented by `other` together with their tag byte, since
their decoding routines are declared outside the given sources. -/
inductive TBlock where
  | turbo (t : tape.TurboSpeedData)
  | groupStart (g : blocks.GroupStart)
  | groupEnd
  | loopStart (l : blocks.LoopStart)
  | loopEnd
  | stopTape48k (s : blocks.StopTapeWhen48kMode)
  | setSignalLevel (s : tape.SetSignalLevel)
  | other (id : Nat)
deriving Repr, DecidableEq

/-- The tag byte a TBlock was dispatched from. -/
def TBlock.tag : TBlock → Nat
  | .turbo _ => 0x11
  | .groupStart _ => 0x21
  | .groupEnd => 0x22
  | .loopStart _ => 0x24
  | .loopEnd => 0x25
  | .stopTape48k _ => 0x2a
  | .setSignalLevel _ => 0x2b
  | .other id => id

/-- The switch labels of readDataBlock (src/tzx/read.go lines 173-224)
whose block Read bodies are not among the given sources. -/
def otherIDs : List Nat :=
  [0x10, 0x12, 0x13, 0x14, 0x15, 0x18, 0x19, 0x20, 0x23,
   0x26, 0x27, 0x28, 0x30, 0x31, 0x33, 0x35, 0x5a]

/-- All switch labels of readDataBlock (src/tzx/read.go lines 173-224). -/
def knownIDs : List Nat :=
  [0x10, 0x11, 0x12, 0x13, 0x14, 0x15, 0x18, 0x19, 0x20, 0x21, 0x22,
   0x23, 0x24, 0x25, 0x26, 0x27, 0x28, 0x2a, 0x2b, 0x30, 0x31, 0x32,
   0x33, 0x35, 0x5a]

/-- Hex digit as a string. -/
def hexDigit (n : Nat) : String :=
  ["0", "1", "2", "3", "4", "5", "6", "7", "8", "9",
   "A", "B", "C", "D", "E", "F"].getD n "?"

/-- Two-digit upper-case hex rendering of a byte (fmt %02X). -/
def hexByte (n : Nat) : String := hexDigit (n / 16 % 16) ++ hexDigit (n % 16)

/-- Reader.readDataBlock (src/tzx/read.go lines 170-232).  The tag byte
has already been consumed by the caller.  The Go switch is translated case
by case (cases are mutually exclusive, so the if-chain order is
immaterial); tag 0x32 returns a nil block without reading (handled by the
caller), unknown tags fail, and for every other case the block's Read runs
with its result ignored — the Go statement `block.Read(r.reader)` on line
229 discards any failure, so readDataBlock itself never reports one.
Block bodies not among the given sources are represented by the
`oR` parameter, which maps the tag and stream to the remaining stream. -/
def readDataBlock (oR : Nat → List Nat → List Nat) (id : Nat) (s : List Nat) :
    Except String (Option TBlock × List Nat) :=
  if id = 0x11 then
    let r := tape.TurboSpeedData.Process s
    .ok (some (.turbo r.1), r.2.1)
  else if id = 0x21 then
    let r := blocks.GroupStart.Read s
    .ok (some (.groupStart r.1), r.2)
  else if id = 0x22 then .ok (some .groupEnd, s)
  else if id = 0x24 then
    let r := blocks.LoopStart.Read s
    .ok (some (.loopStart r.1), r.2)
  else if id = 0x25 then .ok (some .loopEnd, s)
  else if id = 0x2a then
    let r := blocks.StopTapeWhen48kMode.Read s
    .ok (some (.stopTape48k r.1), r.2)
  else if id = 0x2b then
    let r := tape.SetSignalLevel.Process s
    .ok (some (.setSignalLevel r.1), r.2.1)
  else if id = 0x32 then .ok (none, s)
  else if id ∈ otherIDs then .ok (some (.other id), oR id s)
  else .error ("TZX block ID 0x" ++ hexByte id ++ " is deprecated/not supported")

/-- ArchiveInfo record.  Modelled from the spec: blocks.ArchiveInfo is not
under src; the spec describes it as a metadata block with a declared-length
payload, modelled here as the retained payload bytes. -/
structure ArchiveInfo where
  payload : List Nat
deriving Repr, DecidableEq

/-- Modelled from the spec: blocks.ArchiveInfo.Read is not under src; it
consumes a little-endian 16-bit length and then that many metadata bytes,
which it retains. -/
def ArchiveInfo.Read (s : List Nat) : ArchiveInfo × List Nat :=
  let r1 := blocks.rReadShort s
  let r2 := blocks.rReadBytes r1.1 r1.2
  (⟨r2.1⟩, r2.2)

/-- Result of a ReadBlocks run: the appended block sequence, the archive
field, the unconsumed stream, and the error returned (none on clean
end-of-input). -/
structure RunResult where
  blocks : List TBlock
  archive : ArchiveInfo
  remaining : List Nat
  err : Option String
deriving Repr, DecidableEq

/-- Reader.ReadBlocks loop body (src/tzx/read.go lines 113-137).  Each
iteration reads a tag byte (clean end on EOF), runs readDataBlock (an
error aborts, wrapped), and then either replaces the archive field with a
freshly read ArchiveInfo (tag 0x32) or appends the block.  The Go loop is
unbounded; here a fuel argument bounds the recursion and ReadBlocks below
supplies more fuel than any run can use (each iteration consumes the tag
byte).  `aR` stands for the ArchiveInfo.Read routine, `oR` for the Read
routines of block bodies outside the given sources. -/
def readBlocksAux (oR : Nat → List Nat → List Nat)
    (aR : List Nat → ArchiveInfo × List Nat) :
    Nat → List Nat → List TBlock → ArchiveInfo → RunResult
  | 0, s, bs, a => ⟨bs, a, s, some "out of fuel"⟩
  | _ + 1, [], bs, a => ⟨bs, a, [], none⟩
  | fuel + 1, id :: rest, bs, a =>
      match readDataBlock oR id rest with
      | .error e =>
          ⟨bs, a, rest, some ("Unable to complete reading TZX blocks: " ++ e)⟩
      | .ok (blk, rest1) =>
          if id = 0x32 then
            let r := aR rest1
            readBlocksAux oR aR fuel r.2 bs r.1
          else
            readBlocksAux oR aR fuel rest1 (bs ++ blk.toList) a

/-- Reader.ReadBlocks (src/tzx/read.go lines 113-137), starting from the
empty block sequence and the zero-value archive. -/
def ReadBlocks (oR : Nat → List Nat → List Nat)
    (aR : List Nat → ArchiveInfo × List Nat) (s : List Nat) : RunResult :=
  readBlocksAux oR aR (s.length + 1) s [] ⟨[]⟩

/-- Whole-file decode: NewReader validates and consumes the 10-byte
header, then ReadBlocks processes the remaining stream. -/
def tzxDecode (oR : Nat → List Nat → List Nat)
    (aR : List Nat → ArchiveInfo × List Nat) (s : List Nat) :
    Except String (header × RunResult) :=
  match NewReader s with
  | .error e => .error e
  | .ok (h, rest) => .ok (h, ReadBlocks oR aR rest)

/-- Instantiation of the `oR` parameter for concrete runs whose streams
contain none of the externally-declared tags; its value is never reached
in those runs. -/
def otherReadUnused : Nat → List Nat → List Nat := fun _ s => s

end tzx

/-- Concrete inputs used by the claim theorems. -/
def header10 : List Nat := [90, 88, 84, 97, 112, 101, 33, 26, 1, 20]

/-- C1: the claim states that header decoding fails on a terminator other
than 0x1A or a major version other than 1.  In the code, header.valid
threads its error through errors.Wrapf starting from a nil error, and
Wrapf of nil returns nil, so header.valid never reports an error: only the
signature check inside readHeader can fail.  This theorem evaluates the
code at the failing inputs: valid is constantly none, and NewReader
accepts a header with terminator 0 and one with major version 2. -/
theorem c1_header_valid_never_fails :
    (∀ h : tzx.header, h.valid = none) ∧
    tzx.NewReader [90, 88, 84, 97, 112, 101, 33, 0, 1, 20] =
      .ok (⟨[90, 88, 84, 97, 112, 101, 33], 0, 1, 20⟩, []) ∧
    tzx.NewReader [90, 88, 84, 97, 112, 101, 33, 0x1a, 2, 20] =
      .ok (⟨[90, 88, 84, 97, 112, 101, 33], 0x1a, 2, 20⟩, []) := by
  refine ⟨?_, rfl, rfl⟩
  intro h
  unfold tzx.header.valid
  dsimp only
  split <;> split <;> split <;> rfl

/-- Input for C2, laid out as the claim reads it: six words 1..6, used
bits 7, pause 8, 3-byte length 1, one data byte 0xAA, then padding. -/
def c2Input : List Nat :=
  [1, 0, 2, 0, 3, 0, 4, 0, 5, 0, 6, 0, 7, 8, 0, 1, 0, 0, 0xAA, 0, 0, 0, 0, 0]

/-- C2: the claim states that Process consumes six 16-bit words (pilot
pulse, sync first, sync second, zero bit, one bit, pilot tone) before the
used-bits byte.  The code reads only five words and never reads
OneBitPulse, so on c2Input the fifth word 5 lands in PilotTone (the claim
expects OneBitPulse = 5, PilotTone = 6), the sixth word's low byte 6 lands
in UsedBits, and every later field is shifted: Pause = 1792, Length = 8,
spare byte 1. -/
theorem c2_turbo_process_skips_one_bit_pulse :
    tape.TurboSpeedData.Process c2Input =
      (⟨1, 2, 3, 4, 0, 5, 6, 1792, 8, 1, []⟩, [], true) := rfl

/-- Input for C3: valid header, one 0x11 block declaring a 2-byte payload
[0xAB, 0xCD]. -/
def c3Input : List Nat :=
  header10 ++ [0x11] ++
    [1, 0, 2, 0, 3, 0, 4, 0, 5, 0, 7, 8, 0, 2, 0, 0] ++ [0xAB, 0xCD]

/-- The block record the decode of c3Input produces. -/
def c3Block : tape.TurboSpeedData := ⟨1, 2, 3, 4, 0, 5, 7, 8, 2, 0, []⟩

/-- C3 counterexample: decoding header plus one 0x11 block declaring 2
payload bytes [0xAB, 0xCD] yields one block record, but its Data field is
empty rather than equal to the payload — Process discards the bytes it
reads, so the claim that the payload is retained fails at this input. -/
theorem c3_payload_not_retained_counterexample :
    tzx.tzxDecode tzx.otherReadUnused tzx.ArchiveInfo.Read c3Input =
      .ok (⟨tzx.zxtapeSignature, 26, 1, 20⟩,
           ⟨[.turbo c3Block], ⟨[]⟩, [], none⟩) ∧
    c3Block.Data ≠ [0xAB, 0xCD] := ⟨rfl, by decide⟩

/-- C3 amended: decoding yields exactly one block record and consumes the
whole stream — the two payload bytes are read — but the payload is
discarded: the record's Data field stays empty. -/
theorem c3_payload_discarded :
    tzx.tzxDecode tzx.otherReadUnused tzx.ArchiveInfo.Read c3Input =
      .ok (⟨tzx.zxtapeSignature, 26, 1, 20⟩,
           ⟨[.turbo c3Block], ⟨[]⟩, [], none⟩) ∧
    c3Block.Data = [] := ⟨rfl, rfl⟩

/-- Input for C4: a loop-end block, then a 0x11 block declaring a 5-byte
payload of which only 2 bytes remain. -/
def c4Input : List Nat :=
  [0x25, 0x11] ++ [1, 0, 2, 0, 3, 0, 4, 0, 5, 0, 7, 8, 0, 5, 0, 0] ++ [1, 2]

/-- The truncated block record the decode of c4Input produces. -/
def c4Block : tape.TurboSpeedData := ⟨1, 2, 3, 4, 0, 5, 7, 8, 5, 0, []⟩

/-- C4 counterexample: the stream ends inside the declared 5-byte payload
(only 2 bytes remain), and Process does report the truncation in its flag,
yet ReadBlocks returns no error and the truncated block is appended after
the last fully-decoded one — the claim that a truncation error is returned
with no further blocks fails at this input. -/
theorem c4_truncation_not_reported_counterexample :
    (tape.TurboSpeedData.Process
        ([1, 0, 2, 0, 3, 0, 4, 0, 5, 0, 7, 8, 0, 5, 0, 0] ++ [1, 2])).2.2 = false ∧
    (tzx.ReadBlocks tzx.otherReadUnused tzx.ArchiveInfo.Read c4Input).err = none ∧
    (tzx.ReadBlocks tzx.otherReadUnused tzx.ArchiveInfo.Read c4Input).blocks ≠
      [.loopEnd] := ⟨rfl, rfl, by decide⟩

/-- C4 amended: an in-block read failure never propagates: readDataBlock
on tag 0x11 succeeds on every stream, because the Go call
block.Read(r.reader) discards the result and Process itself discards every
read error, so ReadBlocks can only end at EOF between blocks or on an
unknown tag. -/
theorem c4_truncation_swallowed :
    ∀ (oR : Nat → List Nat → List Nat) (s : List Nat),
      ∃ t rest, tzx.readDataBlock oR 0x11 s = .ok (some (.turbo t), rest) :=
  fun _ _ => ⟨_, _, rfl⟩

/-- C7 counterexample: StopTapeWhen48kMode.Read on a block declaring a
4-byte length of 5 followed by 5 payload bytes consumes only the length
and leaves all 5 bytes unread — the claim that exactly L further bytes are
consumed fails at this input. -/
theorem c7_extension_length_not_skipped_counterexample :
    blocks.StopTapeWhen48kMode.Read [5, 0, 0, 0, 9, 9, 9, 9, 9] =
      (⟨5⟩, [9, 9, 9, 9, 9]) ∧
    ([9, 9, 9, 9, 9] : List Nat) ≠ [] := ⟨rfl, by decide⟩

/-- C7 amended: the extension-rule variants read the 4-byte little-endian
length and then a fixed per-variant body — no bytes for 0x2A and exactly
the one signal-level byte for 0x2B — regardless of the declared length,
which is stored but never used to skip payload. -/
theorem c7_fixed_body_reads :
    (∀ b0 b1 b2 b3 : Nat, ∀ rest : List Nat,
      blocks.StopTapeWhen48kMode.Read (b0 :: b1 :: b2 :: b3 :: rest) =
        (⟨b0 + 256 * b1 + 65536 * b2 + 16777216 * b3⟩, rest)) ∧
    (∀ b0 b1 b2 b3 v : Nat, ∀ rest : List Nat,
      tape.SetSignalLevel.Process (b0 :: b1 :: b2 :: b3 :: v :: rest) =
        (⟨b0 + 256 * b1 + 65536 * b2 + 16777216 * b3, v⟩, rest, true)) :=
  ⟨fun _ _ _ _ _ => rfl, fun _ _ _ _ _ _ => rfl⟩

/-- C9: a minimal container — valid header, one loop-end block (0x25),
end-of-input — decodes with no error into exactly one loopEnd record with
the whole stream consumed (the clean Done state), and the loop-end
dispatch consumes zero bytes beyond the tag on every stream. -/
theorem c9_loop_end_minimal_container :
    tzx.tzxDecode tzx.otherReadUnused tzx.ArchiveInfo.Read (header10 ++ [0x25]) =
      .ok (⟨tzx.zxtapeSignature, 26, 1, 20⟩, ⟨[.loopEnd], ⟨[]⟩, [], none⟩) ∧
    ∀ (oR : Nat → List Nat → List Nat) (s : List Nat),
      tzx.readDataBlock oR 0x25 s = .ok (some .loopEnd, s) :=
  ⟨rfl, fun _ _ => rfl⟩

/-- C5: for every tag byte outside the known switch labels, readDataBlock
fails with the deprecated/unsupported error, and the ReadBlocks loop
aborts at once: the result keeps exactly the previously decoded blocks and
archive, consumes nothing past the tag byte, and carries the wrapped
error. -/
theorem c5_unsupported_id_aborts (id : Nat) (hid : id ∉ tzx.knownIDs)
    (oR : Nat → List Nat → List Nat) (aR : List Nat → tzx.ArchiveInfo × List Nat)
    (fuel : Nat) (s : List Nat) (bs : List tzx.TBlock) (a : tzx.ArchiveInfo) :
    tzx.readDataBlock oR id s =
      .error ("TZX block ID 0x" ++ tzx.hexByte id ++ " is deprecated/not supported") ∧
    tzx.readBlocksAux oR aR (fuel + 1) (id :: s) bs a =
      ⟨bs, a, s, some ("Unable to complete reading TZX blocks: " ++
        ("TZX block ID 0x" ++ tzx.hexByte id ++ " is deprecated/not supported"))⟩ := by
  simp only [tzx.knownIDs, List.mem_cons, List.not_mem_nil, or_false] at hid
  push_neg at hid
  obtain ⟨h10, h11, h12, h13, h14, h15, h18, h19, h20, h21, h22, h23, h24, h25,
    h26, h27, h28, h2a, h2b, h30, h31, h32, h33, h35, h5a⟩ := hid
  have hO : id ∉ tzx.otherIDs := by
    simp only [tzx.otherIDs, List.mem_cons, List.not_mem_nil, or_false]
    push_neg
    exact ⟨h10, h12, h13, h14, h15, h18, h19, h20, h23, h26, h27, h28,
      h30, h31, h33, h35, h5a⟩
  have hrd : tzx.readDataBlock oR id s =
      .error ("TZX block ID 0x" ++ tzx.hexByte id ++ " is deprecated/not supported") := by
    unfold tzx.readDataBlock
    rw [if_neg h11, if_neg h21, if_neg h22, if_neg h24, if_neg h25,
      if_neg h2a, if_neg h2b, if_neg h32, if_neg hO]
  refine ⟨hrd, ?_⟩
  simp only [tzx.readBlocksAux, hrd]

/-- C5 witness: the theorem applied at the deprecated tag 0x16 with an
empty stream and empty accumulated state. -/
theorem c5_unsupported_id_aborts_witness :
    tzx.readDataBlock tzx.otherReadUnused 0x16 [] =
      .error ("TZX block ID 0x" ++ tzx.hexByte 0x16 ++ " is deprecated/not supported") ∧
    tzx.readBlocksAux tzx.otherReadUnused tzx.ArchiveInfo.Read 1 [0x16] [] ⟨[]⟩ =
      ⟨[], ⟨[]⟩, [], some ("Unable to complete reading TZX blocks: " ++
        ("TZX block ID 0x" ++ tzx.hexByte 0x16 ++ " is deprecated/not supported"))⟩ :=
  c5_unsupported_id_aborts 0x16 (by decide) tzx.otherReadUnused
    tzx.ArchiveInfo.Read 0 [] [] ⟨[]⟩

/-- Input for C6: 13 filler bytes for the five words, used bits and pause
that Process actually reads, then the three length bytes [2, 0, 1]
(claimed 24-bit value 65538), then 5 payload bytes. -/
def c6Input : List Nat :=
  [0, 0, 0, 0, 0, 0, 0, 0, 0, 0, 0, 0, 0] ++ [2, 0, 1] ++ [9, 9, 9, 9, 9]

/-- C6 counterexample: the 3-byte length [2, 0, 1] denotes 65538, but
tape.TurboSpeedData.Process stores only the low 16 bits (2) plus a spare
byte and then reads just 2 payload bytes: on c6Input it leaves [9, 9, 9]
unconsumed, consuming 18 bytes in total instead of the 16 + 65538 the
claim requires. -/
theorem c6_process_payload_count_counterexample :
    (blocks.read3ByteLength [2, 0, 1]).1 = 65538 ∧
    (tape.TurboSpeedData.Process c6Input).2.1 = [9, 9, 9] ∧
    c6Input.length - (tape.TurboSpeedData.Process c6Input).2.1.length ≠
      16 + 65538 := ⟨rfl, rfl, by decide⟩

/-- Helper for C6: value and consumption of the 3-byte length read. -/
theorem read3ByteLength_cons (b0 b1 b2 : Nat) (rest : List Nat) :
    blocks.read3ByteLength (b0 :: b1 :: b2 :: rest) =
      (b0 + 256 * b1 + 65536 * b2, rest) := by
  show (bytesToLong [b0, b1, b2, 0], rest) = _
  simp only [bytesToLong, Prod.mk.injEq, and_true]
  ring

/-- Helper for C6: blocks.TurboSpeedData.Read on an explicit 16-byte fixed
part reduces to the declared-length payload read; pure definitional
unfolding of the Read body. -/
theorem turboRead_cons (p0 p1 p2 p3 p4 p5 p6 p7 p8 p9 p10 p11 p12 p13 p14 : Nat)
    (tl : List Nat) :
    blocks.TurboSpeedData.Read
        (0x11 :: p0 :: p1 :: p2 :: p3 :: p4 :: p5 :: p6 :: p7 :: p8 :: p9 ::
          p10 :: p11 :: p12 :: p13 :: p14 :: tl) =
      (match blocks.rRead (blocks.read3ByteLength tl).1 (blocks.read3ByteLength tl).2 with
       | .error e => .error e
       | .ok rD =>
           .ok (⟨0x11, p0 + 256 * p1, p2 + 256 * p3, p4 + 256 * p5, p6 + 256 * p7,
             p8 + 256 * p9, p10 + 256 * p11, p12, p13 + 256 * p14,
             (blocks.read3ByteLength tl).1⟩, rD.2)) := rfl

/-- C6 amended: the 3-byte length read returns b0 + 256*b1 + 65536*b2 and
satisfies both spec examples, and blocks.TurboSpeedData.Read (group.go)
then consumes exactly that many payload bytes; the tzxbrowser Process
instead keeps the low 16 bits plus a spare byte and consumes only
b0 + 256*b1 payload bytes (see the counterexample). -/
theorem c6_read3_byte_length_correct :
    (∀ b0 b1 b2 : Nat, ∀ rest : List Nat,
      blocks.read3ByteLength (b0 :: b1 :: b2 :: rest) =
        (b0 + 256 * b1 + 65536 * b2, rest)) ∧
    (blocks.read3ByteLength [0x10, 0x00, 0x00]).1 = 16 ∧
    (blocks.read3ByteLength [0xFF, 0xFF, 0xFF]).1 = 0xFFFFFF ∧
    (∀ p0 p1 p2 p3 p4 p5 p6 p7 p8 p9 p10 p11 p12 p13 p14 b0 b1 b2 : Nat,
      ∀ payload rest : List Nat,
      payload.length = b0 + 256 * b1 + 65536 * b2 →
      blocks.TurboSpeedData.Read
          (0x11 :: p0 :: p1 :: p2 :: p3 :: p4 :: p5 :: p6 :: p7 :: p8 :: p9 ::
            p10 :: p11 :: p12 :: p13 :: p14 :: b0 :: b1 :: b2 :: (payload ++ rest)) =
        .ok (⟨0x11, p0 + 256 * p1, p2 + 256 * p3, p4 + 256 * p5, p6 + 256 * p7,
          p8 + 256 * p9, p10 + 256 * p11, p12, p13 + 256 * p14,
          b0 + 256 * b1 + 65536 * b2⟩, rest)) := by
  refine ⟨read3ByteLength_cons, rfl, rfl, ?_⟩
  intro p0 p1 p2 p3 p4 p5 p6 p7 p8 p9 p10 p11 p12 p13 p14 b0 b1 b2 payload rest hlen
  have hle : b0 + 256 * b1 + 65536 * b2 ≤ (payload ++ rest).length := by
    rw [List.length_append, hlen]; omega
  have hrr : blocks.rRead (b0 + 256 * b1 + 65536 * b2) (payload ++ rest) =
      .ok ((payload ++ rest).take (b0 + 256 * b1 + 65536 * b2), rest) := by
    unfold blocks.rRead
    rw [if_pos hle, ← hlen, List.drop_left]
  rw [turboRead_cons, read3ByteLength_cons]
  dsimp only
  rw [hrr]

/-- C6 witness: the amended theorem applied at the 3-byte length [2, 0, 0]
with a 2-byte payload [5, 5] and a trailing byte [7]. -/
theorem c6_read3_byte_length_correct_witness :
    ([5, 5] : List Nat).length = 2 + 256 * 0 + 65536 * 0 ∧
    blocks.TurboSpeedData.Read
        (0x11 :: 0 :: 0 :: 0 :: 0 :: 0 :: 0 :: 0 :: 0 :: 0 :: 0 ::
          0 :: 0 :: 0 :: 0 :: 0 :: 2 :: 0 :: 0 :: ([5, 5] ++ [7])) =
      .ok (⟨0x11, 0 + 256 * 0, 0 + 256 * 0, 0 + 256 * 0, 0 + 256 * 0,
        0 + 256 * 0, 0 + 256 * 0, 0, 0 + 256 * 0, 2 + 256 * 0 + 65536 * 0⟩, [7]) :=
  ⟨by decide,
   c6_read3_byte_length_correct.2.2.2 0 0 0 0 0 0 0 0 0 0 0 0 0 0 0 2 0 0
     [5, 5] [7] (by decide)⟩

/-- Helper for C8: every block that readDataBlock returns for appending
has a tag other than 0x32 — the 0x32 case returns no block, and the other
cases construct blocks tagged with their own (non-0x32) switch label. -/
theorem readDataBlock_ok_tag_ne (oR : Nat → List Nat → List Nat) (id : Nat)
    (s : List Nat) (b : tzx.TBlock) (r : List Nat)
    (hb : tzx.readDataBlock oR id s = .ok (some b, r)) : b.tag ≠ 0x32 := by
  unfold tzx.readDataBlock at hb
  split_ifs at hb with h1 h2 h3 h4 h5 h6 h7 h8 h9
  · simp only [Except.ok.injEq, Prod.mk.injEq, Option.some.injEq] at hb
    rw [← hb.1]; simp only [tzx.TBlock.tag]; decide
  · simp only [Except.ok.injEq, Prod.mk.injEq, Option.some.injEq] at hb
    rw [← hb.1]; simp only [tzx.TBlock.tag]; decide
  · simp only [Except.ok.injEq, Prod.mk.injEq, Option.some.injEq] at hb
    rw [← hb.1]; simp only [tzx.TBlock.tag]; decide
  · simp only [Except.ok.injEq, Prod.mk.injEq, Option.some.injEq] at hb
    rw [← hb.1]; simp only [tzx.TBlock.tag]; decide
  · simp only [Except.ok.injEq, Prod.mk.injEq, Option.some.injEq] at hb
    rw [← hb.1]; simp only [tzx.TBlock.tag]; decide
  · simp only [Except.ok.injEq, Prod.mk.injEq, Option.some.injEq] at hb
    rw [← hb.1]; simp only [tzx.TBlock.tag]; decide
  · simp only [Except.ok.injEq, Prod.mk.injEq, Option.some.injEq] at hb
    rw [← hb.1]; simp only [tzx.TBlock.tag]; decide
  · simp at hb
  · simp only [Except.ok.injEq, Prod.mk.injEq, Option.some.injEq] at hb
    rw [← hb.1]
    show id ≠ 0x32
    simp only [tzx.otherIDs, List.mem_cons, List.not_mem_nil, or_false] at h9
    omega

/-- Helper for C8: the ReadBlocks loop never appends a block tagged 0x32:
filtered on that tag, the output block sequence equals the input one. -/
theorem readBlocksAux_no_archive_blocks (oR : Nat → List Nat → List Nat)
    (aR : List Nat → tzx.ArchiveInfo × List Nat) :
    ∀ (fuel : Nat) (s : List Nat) (bs : List tzx.TBlock) (a : tzx.ArchiveInfo),
      (tzx.readBlocksAux oR aR fuel s bs a).blocks.filter
          (fun b => b.tag == 0x32) =
        bs.filter (fun b => b.tag == 0x32) := by
  intro fuel
  induction fuel with
  | zero => intro s bs a; rfl
  | succ n ih =>
    intro s bs a
    match s with
    | [] => rfl
    | id :: rest =>
      simp only [tzx.readBlocksAux]
      cases hdb : tzx.readDataBlock oR id rest with
      | error e => simp
      | ok pr =>
        obtain ⟨blk, rest1⟩ := pr
        by_cases h32 : id = 0x32
        · simp [h32, ih]
        · cases blk with
          | none => simp [h32, ih]
          | some b =>
            have hb := readDataBlock_ok_tag_ne oR id rest b rest1 hdb
            simp [h32, ih, List.filter_append, hb]

/-- C8: no block tagged 0x32 ever appears in the block sequence ReadBlocks
produces, for any stream and any behaviour of the externally-declared
block and archive readers; and whenever the loop meets tag 0x32 it decodes
the block into the archive field instead, regardless of position. -/
theorem c8_archive_block_never_appended
    (oR : Nat → List Nat → List Nat) (aR : List Nat → tzx.ArchiveInfo × List Nat)
    (s : List Nat) :
    (tzx.ReadBlocks oR aR s).blocks.filter (fun b => b.tag == 0x32) = [] ∧
    ∀ (fuel : Nat) (rest : List Nat) (bs : List tzx.TBlock) (a : tzx.ArchiveInfo),
      tzx.readBlocksAux oR aR (fuel + 1) (0x32 :: rest) bs a =
        tzx.readBlocksAux oR aR fuel (aR rest).2 bs (aR rest).1 := by
  constructor
  · have h := readBlocksAux_no_archive_blocks oR aR (s.length + 1) s [] ⟨[]⟩
    simpa [tzx.ReadBlocks] using h
  · intro fuel rest bs a
    rfl

/-- Helper for C10: either a ReadBlocks run leaves the archive field
untouched (no 0x32 block was processed), or its entire result is
insensitive to the initial archive value — the first 0x32 block processed
overwrites it. -/
theorem readBlocksAux_archive_insensitive (oR : Nat → List Nat → List Nat)
    (aR : List Nat → tzx.ArchiveInfo × List Nat) :
    ∀ (fuel : Nat) (s : List Nat) (bs : List tzx.TBlock) (a : tzx.ArchiveInfo),
      (tzx.readBlocksAux oR aR fuel s bs a).archive = a ∨
      ∀ a2, tzx.readBlocksAux oR aR fuel s bs a2 =
        tzx.readBlocksAux oR aR fuel s bs a := by
  intro fuel
  induction fuel with
  | zero => intro s bs a; left; rfl
  | succ n ih =>
    intro s bs a
    match s with
    | [] => left; rfl
    | id :: rest =>
      simp only [tzx.readBlocksAux]
      cases hdb : tzx.readDataBlock oR id rest with
      | error e => left; rfl
      | ok pr =>
        obtain ⟨blk, rest1⟩ := pr
        by_cases h32 : id = 0x32
        · right
          intro a2
          simp [h32]
        · rcases ih rest1 (bs ++ blk.toList) a with hL | hR
          · left; simpa [h32] using hL
          · right
            intro a2
            simpa [h32] using hR a2

/-- Input for C10: two archive-info blocks, the first with payload
[0xAA, 0xBB], the second with payload [0xCC]. -/
def c10Input : List Nat := [0x32, 2, 0, 0xAA, 0xBB, 0x32, 1, 0, 0xCC]

/-- C10: on a stream with two 0x32 blocks the final archive field holds
only the second (last) one's payload, the blocks list stays empty and no
error is raised; and in general a run either never touches the archive
field or its whole result is independent of the previously stored archive
value — every processed 0x32 block resets and overwrites it, so earlier
occurrences are lost. -/
theorem c10_archive_overwritten_by_last :
    (tzx.ReadBlocks tzx.otherReadUnused tzx.ArchiveInfo.Read c10Input).archive =
      ⟨[0xCC]⟩ ∧
    (tzx.ReadBlocks tzx.otherReadUnused tzx.ArchiveInfo.Read c10Input).err = none ∧
    (tzx.ReadBlocks tzx.otherReadUnused tzx.ArchiveInfo.Read c10Input).blocks = [] ∧
    ∀ (oR : Nat → List Nat → List Nat) (aR : List Nat → tzx.ArchiveInfo × List Nat)
      (fuel : Nat) (s : List Nat) (bs : List tzx.TBlock) (a : tzx.ArchiveInfo),
      (tzx.readBlocksAux oR aR fuel s bs a).archive = a ∨
      ∀ a2, tzx.readBlocksAux oR aR fuel s bs a2 =
        tzx.readBlocksAux oR aR fuel s bs a :=
  ⟨rfl, rfl, rfl, fun oR aR => readBlocksAux_archive_insensitive oR aR⟩
